import Mathlib

/-!
Verification of the interactive-chatbot core against its specification.

The development shallowly embeds the two core pieces of the program:

* `src/server.py` — `ChatServer`: a registry of live connections
  (`register`, `unregister`, `handler`, `broadcast`).
* `src/client.py` — `GPTClient`: the turn-taking agent
  (`on_message`, `_talk_loop` tick, `_classify_intent`, `_generate_reply`).

Connections are modelled as natural numbers (identity is equality), the
Python `set` of users as a duplicate-free list, wall-clock time as `Rat`,
and each external effect (a websocket `send`, an OpenAI call) as an
explicit outcome parameter: a `Conn → Bool` saying which sends raise, an
`Except String String` for the result of a network call.
-/

/-- A connection handle; the transport layer owns it, the core compares it
only by identity. -/
abbrev Conn := Nat

/-- Server state: `self.users`, the set of currently registered
connections (Python `set`, modelled as a duplicate-free list). -/
structure ServerState where
  users : List Conn
deriving Repr, DecidableEq

/-- Embeds `ChatServer.register` (server.py line 10): `self.users.add(websocket)`,
the idempotent insertion of a Python `set`. -/
def register (users : List Conn) (c : Conn) : List Conn :=
  if c ∈ users then users else users ++ [c]

/-- Embeds `ChatServer.unregister` (server.py line 13):
`self.users.remove(websocket)`. Python `set.remove` raises `KeyError`
when the element is absent, so the embedding is fallible. -/
def unregister (users : List Conn) (c : Conn) : Except String (List Conn) :=
  if c ∈ users then Except.ok (users.erase c) else Except.error "KeyError"

/-- Embeds the loop body of `ChatServer.broadcast` (server.py lines 25-27):
`for user in self.users: if user != sender: await user.send(message)`.
`fails u = true` means `u.send` raises. Returns the sends performed, in
order, and `some u` when the iteration aborted because sending to `u`
raised (the exception is not caught, so it escapes the loop). -/
def broadcastGo (users : List Conn) (message : String) (sender : Option Conn)
    (fails : Conn → Bool) : List (Conn × String) × Option Conn :=
  match users with
  | [] => ([], none)
  | u :: rest =>
      if some u = sender then broadcastGo rest message sender fails
      else if fails u then ([], some u)
      else
        let r := broadcastGo rest message sender fails
        ((u, message) :: r.1, r.2)

/-- Embeds `ChatServer.broadcast` (server.py lines 24-27) as a state
transformer: the body only reads `self.users`, so the state component of
the result is the input state unchanged. -/
def broadcast (st : ServerState) (message : String) (sender : Option Conn)
    (fails : Conn → Bool) : ServerState × List (Conn × String) × Option Conn :=
  (st, broadcastGo st.users message sender fails)

/-- Embeds the `async for message in websocket: await self.broadcast(...)`
loop of `ChatServer.handler` (server.py lines 19-20): each inbound message
is broadcast with the serving connection as sender; an uncaught send
failure inside a broadcast escapes the loop (second component `true`). -/
def processMessages (users : List Conn) (c : Conn) (inbound : List String)
    (fails : Conn → Bool) : List (Conn × String) × Bool :=
  match inbound with
  | [] => ([], false)
  | m :: rest =>
      let r := broadcastGo users m (some c) fails
      match r.2 with
      | some _ => (r.1, true)
      | none =>
          let r2 := processMessages users c rest fails
          (r.1 ++ r2.1, r2.2)

/-- Embeds `ChatServer.handler` (server.py lines 16-22): register, read and
broadcast inbound messages until the stream ends (`inbound` exhausted) or
errors (`readError`, or a broadcast raising), then — in a `finally` block,
hence on every exit path — unregister. Returns the final state (fallible,
since `unregister` can raise), the sends performed, and whether the read
loop exited by error. -/
def handler (st : ServerState) (c : Conn) (inbound : List String)
    (readError : Bool) (fails : Conn → Bool) :
    Except String ServerState × List (Conn × String) × Bool :=
  let u1 := register st.users c
  let p := processMessages u1 c inbound fails
  ((unregister u1 c).map ServerState.mk, p.1, p.2 || readError)

/-- One entry of the conversation history: a Python dict
`{"role": ..., "content": ...}` in OpenAI message format. -/
structure Turn where
  role : String
  content : String
deriving Repr, DecidableEq

/-- Embeds `GPTClient.SENTENCE_TYPES` (client.py lines 91-96): the closed
map from intent keys to their Korean descriptions. -/
def SENTENCE_TYPES : List (String × String) :=
  [("ack", "간결한 호응"), ("op", "의견·제안"), ("new", "새 주제"), ("bye", "대화 종료")]

/-- The fixed system-role persona Turn installed by `GPTClient.__init__`
(client.py lines 102-104). -/
def system_turn : Turn :=
  ⟨"system", "컴퓨터공학과 대학생 친구이다. 인터넷 커뮤니티 댓글같은 단답 위주의 20대 남성의 말투 소유."⟩

/-- The mutable state of a `GPTClient` (client.py lines 98-110):
`message_history`, `pending_sentence_type` and `_last_user_ts` (wall-clock
time modelled as `Rat`). -/
structure AgentState where
  message_history : List Turn
  pending_sentence_type : Option String
  last_user_ts : Rat
deriving Repr, DecidableEq

/-- Embeds `self.idle_seconds_before_talk = 2.0` (client.py line 108). -/
def idle_seconds_before_talk : Rat := 2

/-- The state a `GPTClient` holds right after `__init__` (client.py lines
98-110): history containing only the persona Turn, no pending intent,
last-user timestamp 0.0. -/
def init_state : AgentState :=
  { message_history := [system_turn], pending_sentence_type := none, last_user_ts := 0 }

/-- Embeds `GPTClient._classify_intent` (client.py lines 162-190). The
external OpenAI call is an explicit outcome: `Except.ok key` stands for a
returned `completion.choices[0].message.content.strip().lower()` (the
stripping and lowercasing of the returned text happen at the external
boundary), `Except.error e` for a raised exception, on which the source
falls back to `"ack"`; finally any key outside the keys of
`SENTENCE_TYPES` collapses to `"ack"`. -/
def classify_intent (outcome : Except String String) : String :=
  let key :=
    match outcome with
    | Except.ok key => key
    | Except.error _ => "ack"
  if (SENTENCE_TYPES.map Prod.fst).contains key then key else "ack"

/-- Embeds `GPTClient.on_message` (client.py lines 118-127): append a user
Turn, refresh `_last_user_ts` to the current loop time, classify the
message (outcome of the external call passed explicitly) and store the
result as the pending sentence type. -/
def on_message (st : AgentState) (message : String) (now : Rat)
    (classifyOutcome : Except String String) : AgentState :=
  { st with
    message_history := st.message_history ++ [⟨"user", message⟩],
    last_user_ts := now,
    pending_sentence_type := some (classify_intent classifyOutcome) }

/-- Embeds `SENTENCE_TYPES.get(sentence_type, "간결한 호응")`
(client.py line 194). -/
def type_desc (sentence_type : String) : String :=
  (SENTENCE_TYPES.lookup sentence_type).getD "간결한 호응"

/-- Embeds the `sys_msg` string built in `GPTClient._generate_reply`
(client.py lines 195-199). -/
def sys_msg (sentence_type : String) : String :=
  "너는 20대 남성 대학생 친구로, 인터넷 커뮤니티 단답 같은 가벼운 말투를 사용한다. " ++
  "지금은 상대가 원하는 답변 유형이 \u0027" ++ type_desc sentence_type ++
  "\u0027 라는 정보를 알고 있다. " ++ "그 유형에 맞는 한두 문장만 출력해라."

/-- Embeds `self.message_history[-5:]` (client.py line 205): the last five
entries (all of them when fewer). -/
def last_five (l : List Turn) : List Turn := l.drop (l.length - 5)

/-- Embeds the `messages` list `GPTClient._generate_reply` sends to the
OpenAI API (client.py lines 203-206): the type-directed system instruction
followed by the last five history entries. -/
def generation_request (sentence_type : String) (history : List Turn) : List Turn :=
  ⟨"system", sys_msg sentence_type⟩ :: last_five history

/-- Embeds the rest of `GPTClient._generate_reply` (client.py lines
200-213): on success the returned content, stripped; on a raised exception
`e`, the fallback string `f"[GPT error] {e}"`. -/
def generate_reply (sentence_type : String) (outcome : Except String String) : String :=
  match outcome with
  | Except.ok content => content.trim
  | Except.error e => "[GPT error] " ++ e

/-- The `if self.message_history and self.message_history[-1]["role"] ==
"assistant"` guard of `_talk_loop` (client.py line 143). -/
def lastRoleIsAssistant (h : List Turn) : Bool :=
  match h.getLast? with
  | some t => t.role == "assistant"
  | none => false

/-- Embeds one iteration of `GPTClient._talk_loop` (client.py lines
138-158), the body executed after each 0.3 s sleep: skip when nothing is
pending; clear the pending type and skip when the last Turn is already
assistant-authored; skip while the idle window has not elapsed; otherwise
consume the pending type, generate a reply (external outcome passed
explicitly), send it (the `Option String` result) and append it as an
assistant Turn. -/
def tick (st : AgentState) (now : Rat) (gen : Except String String) :
    AgentState × Option String :=
  match st.pending_sentence_type with
  | none => (st, none)
  | some ty =>
      if lastRoleIsAssistant st.message_history then
        ({ st with pending_sentence_type := none }, none)
      else if now - st.last_user_ts < idle_seconds_before_talk then
        (st, none)
      else
        let reply := generate_reply ty gen
        ({ st with
            pending_sentence_type := none,
            message_history := st.message_history ++ [⟨"assistant", reply⟩] },
         some reply)

/-- The states a `GPTClient` can reach from construction through any
interleaving of message arrivals and talk-loop ticks. -/
inductive Reachable : AgentState → Prop where
  | init : Reachable init_state
  | msg (st : AgentState) (m : String) (now : Rat) (co : Except String String) :
      Reachable st → Reachable (on_message st m now co)
  | tickStep (st : AgentState) (now : Rat) (g : Except String String) :
      Reachable st → Reachable (tick st now g).1

/-- The `user != sender` test of the broadcast loop, as a Boolean
predicate. -/
def nonSender (sender : Option Conn) : Conn → Bool :=
  fun u => !decide (some u = sender)

/-- Negation of the send-failure oracle: `sendOk fails u` means `u.send`
succeeds. -/
def sendOk (fails : Conn → Bool) : Conn → Bool :=
  fun u => !fails u

theorem broadcastGo_eq (users : List Conn) (message : String) (sender : Option Conn)
    (fails : Conn → Bool) :
    broadcastGo users message sender fails =
      (((users.filter (nonSender sender)).takeWhile (sendOk fails)).map (fun u => (u, message)),
       ((users.filter (nonSender sender)).dropWhile (sendOk fails)).head?) := by
  induction users with
  | nil => rfl
  | cons u rest ih =>
      by_cases hs : some u = sender
      · simp [broadcastGo, hs, nonSender, List.filter_cons, ih]
      · by_cases hf : fails u
        · simp [broadcastGo, hs, hf, nonSender, sendOk, List.filter_cons]
        · simp [broadcastGo, hs, hf, nonSender, sendOk, List.filter_cons, ih]

/-- C2 counterexample: `unregister` on a connection that is not registered
is not a no-op — it raises `KeyError` (Python `set.remove`). -/
theorem unregister_absent_cex : unregister [] 0 = Except.error "KeyError" := rfl

/-- C2 (amended): calling `unregister(conn)` with a `conn` that is not
currently registered raises a `KeyError` instead of being a no-op; with a
registered `conn` it succeeds and removes exactly `conn`. -/
theorem unregister_spec (users : List Conn) (c : Conn) (hnd : users.Nodup) :
    (c ∉ users → unregister users c = Except.error "KeyError") ∧
    (c ∈ users → ∃ users2, unregister users c = Except.ok users2 ∧
      ∀ x, x ∈ users2 ↔ x ∈ users ∧ x ≠ c) := by
  constructor
  · intro h
    simp [unregister, h]
  · intro h
    refine ⟨users.erase c, by simp [unregister, h], fun x => ?_⟩
    rw [hnd.mem_erase_iff]
    tauto

/-- Witness for `unregister_spec` at a concrete registry. -/
theorem unregister_spec_witness :
    ∃ users2, unregister [5, 7] 5 = Except.ok users2 ∧
      ∀ x, x ∈ users2 ↔ x ∈ [5, 7] ∧ x ≠ 5 :=
  (unregister_spec [5, 7] 5 (by decide)).2 (by decide)

theorem count_map_pair (l : List Conn) (m : String) (u : Conn) :
    ((l.map fun v => (v, m)).count (u, m)) = l.count u := by
  induction l with
  | nil => rfl
  | cons a t ih => simp [List.count_cons, ih]

theorem count_nodup_one {l : List Conn} (hnd : l.Nodup) {u : Conn} (hu : u ∈ l) :
    l.count u = 1 := by
  induction l with
  | nil => simp at hu
  | cons a t ih =>
      simp only [List.nodup_cons] at hnd
      rcases List.mem_cons.mp hu with h | h
      · subst h
        simp [List.count_cons, List.count_eq_zero.mpr hnd.1]
      · have hne : u ≠ a := fun he => hnd.1 (he ▸ h)
        simp [List.count_cons, hne, ih hnd.2 h]

/-- C5: broadcasting with a sender delivers the message exactly once to
every registered connection other than the sender, and never to the
sender, when no send fails. -/
theorem broadcast_no_self_exactly_once (users : List Conn) (message : String) (s : Conn)
    (hnd : users.Nodup) :
    (∀ u ∈ users, u ≠ s →
      (broadcastGo users message (some s) (fun _ => false)).1.count (u, message) = 1) ∧
    (∀ m : String, (s, m) ∉ (broadcastGo users message (some s) (fun _ => false)).1) ∧
    (broadcastGo users message (some s) (fun _ => false)).2 = none := by
  rw [broadcastGo_eq]
  have htw : ∀ l : List Conn, l.takeWhile (sendOk fun _ => false) = l := fun l =>
    List.takeWhile_eq_self_iff.mpr (by intro x _; simp [sendOk])
  have hdw : ∀ l : List Conn, l.dropWhile (sendOk fun _ => false) = [] := fun l =>
    List.dropWhile_eq_nil_iff.mpr (by intro x _; simp [sendOk])
  rw [htw, hdw]
  dsimp only
  refine ⟨?_, ?_, rfl⟩
  · intro u hu hus
    have hmemf : u ∈ users.filter (nonSender (some s)) :=
      List.mem_filter.mpr ⟨hu, by simp [nonSender, hus]⟩
    exact (count_map_pair _ message u).trans (count_nodup_one (hnd.filter _) hmemf)
  · intro m hm
    obtain ⟨u, hu, he⟩ := List.mem_map.mp hm
    have hus : u = s := congrArg Prod.fst he
    have := (List.mem_filter.mp hu).2
    simp [nonSender, hus] at this

/-- Witness for `broadcast_no_self_exactly_once`: three connections
registered, connection 1 broadcasts; 2 receives exactly once and 1
receives nothing. -/
theorem broadcast_no_self_exactly_once_witness :
    (broadcastGo [1, 2, 3] "hi" (some 1) (fun _ => false)).1.count (2, "hi") = 1 ∧
    ((1 : Conn), "hi") ∉ (broadcastGo [1, 2, 3] "hi" (some 1) (fun _ => false)).1 :=
  ⟨(broadcast_no_self_exactly_once [1, 2, 3] "hi" 1 (by decide)).1 2 (by decide) (by decide),
   (broadcast_no_self_exactly_once [1, 2, 3] "hi" 1 (by decide)).2.1 "hi"⟩

/-- C1 counterexample: registry holds connections 2 and 3, connection 1 is
the sender, and sending to 2 raises. The exception propagates out of
`broadcast` (component `some 2`), connection 3 — still registered and not
the sender — never receives the message, and nobody is unregistered (the
registered set is returned unchanged). -/
theorem broadcast_send_failure_cex :
    (broadcast ⟨[2, 3]⟩ "hi" (some 1) (fun u => decide (u = 2))).2.2 = some 2 ∧
    ((3 : Conn), "hi") ∉ (broadcast ⟨[2, 3]⟩ "hi" (some 1) (fun u => decide (u = 2))).2.1 ∧
    (broadcast ⟨[2, 3]⟩ "hi" (some 1) (fun u => decide (u = 2))).1 = ⟨[2, 3]⟩ := by
  decide

/-- C1 (amended): a failure of `send` on one recipient is not caught
inside `broadcast`: the registered set is left unchanged (no recipient is
unregistered by `broadcast`), the exception of the first failing
non-sender recipient in iteration order propagates to the caller of
`broadcast`, and the message is delivered precisely to the non-sender
recipients iterated before that failing one. -/
theorem broadcast_send_failure_spec (users : List Conn) (message : String)
    (sender : Option Conn) (fails : Conn → Bool)
    (h : ∃ u ∈ users, some u ≠ sender ∧ fails u = true) :
    (broadcast ⟨users⟩ message sender fails).1 = ⟨users⟩ ∧
    (broadcast ⟨users⟩ message sender fails).2.2 =
      ((users.filter (nonSender sender)).dropWhile (sendOk fails)).head? ∧
    (broadcast ⟨users⟩ message sender fails).2.2 ≠ none ∧
    (broadcast ⟨users⟩ message sender fails).2.1 =
      ((users.filter (nonSender sender)).takeWhile (sendOk fails)).map
        (fun u => (u, message)) := by
  obtain ⟨u, hu, hus, hf⟩ := h
  refine ⟨rfl, ?_, ?_, ?_⟩
  · show (broadcastGo users message sender fails).2 = _
    rw [broadcastGo_eq]
  · show (broadcastGo users message sender fails).2 ≠ none
    rw [broadcastGo_eq]
    dsimp only
    intro hnone
    rw [List.head?_eq_none_iff] at hnone
    have : ∀ x ∈ users.filter (nonSender sender), sendOk fails x :=
      List.dropWhile_eq_nil_iff.mp hnone
    have humem : u ∈ users.filter (nonSender sender) :=
      List.mem_filter.mpr ⟨hu, by simp [nonSender, hus]⟩
    have := this u humem
    simp [sendOk, hf] at this
  · show (broadcastGo users message sender fails).1 = _
    rw [broadcastGo_eq]

/-- Witness for `broadcast_send_failure_spec` at the concrete registry of
the counterexample. -/
theorem broadcast_send_failure_spec_witness :
    (broadcast ⟨[2, 3]⟩ "boom" (some 1) (fun u => decide (u = 2))).1 = ⟨[2, 3]⟩ ∧
    (broadcast ⟨[2, 3]⟩ "boom" (some 1) (fun u => decide (u = 2))).2.2 =
      ((([2, 3] : List Conn).filter (nonSender (some 1))).dropWhile
        (sendOk fun u => decide (u = 2))).head? ∧
    (broadcast ⟨[2, 3]⟩ "boom" (some 1) (fun u => decide (u = 2))).2.2 ≠ none ∧
    (broadcast ⟨[2, 3]⟩ "boom" (some 1) (fun u => decide (u = 2))).2.1 =
      ((([2, 3] : List Conn).filter (nonSender (some 1))).takeWhile
        (sendOk fun u => decide (u = 2))).map (fun u => (u, "boom")) :=
  broadcast_send_failure_spec [2, 3] "boom" (some 1) (fun u => decide (u = 2))
    ⟨2, by decide, by decide, by decide⟩

theorem mem_register (users : List Conn) (c : Conn) : c ∈ register users c := by
  unfold register
  split
  · assumption
  · simp

theorem nodup_register {users : List Conn} (hnd : users.Nodup) (c : Conn) :
    (register users c).Nodup := by
  unfold register
  split
  · exact hnd
  · next h => simpa [List.nodup_append] using ⟨hnd, h⟩

/-- C9: every handler execution registers the connection on entry, and the
`finally`-protected unregister runs and succeeds on every exit path —
whether the read loop ends normally, by a read error, or by a broadcast
raising — so the final registered set never contains the connection. -/
theorem handler_lifecycle (st : ServerState) (c : Conn) (inbound : List String)
    (readError : Bool) (fails : Conn → Bool) (hnd : st.users.Nodup) :
    c ∈ register st.users c ∧
    ∃ st2, (handler st c inbound readError fails).1 = Except.ok st2 ∧ c ∉ st2.users := by
  refine ⟨mem_register st.users c, ⟨(register st.users c).erase c⟩, ?_, ?_⟩
  · show (unregister (register st.users c) c).map ServerState.mk = _
    simp [unregister, mem_register st.users c, Except.map]
  · intro hmem
    have := ((nodup_register hnd c).mem_erase_iff).mp hmem
    exact this.1 rfl

/-- Witness for `handler_lifecycle`: a concrete run whose single broadcast
raises (connection 9 is registered and fails), i.e. an error exit path. -/
theorem handler_lifecycle_witness :
    (7 : Conn) ∈ register [9] 7 ∧
    ∃ st2, (handler ⟨[9]⟩ 7 ["hello"] false (fun u => decide (u = 9))).1 =
      Except.ok st2 ∧ (7 : Conn) ∉ st2.users :=
  handler_lifecycle ⟨[9]⟩ 7 ["hello"] false (fun u => decide (u = 9)) (by decide)

/-- C6: intent classification always lands in the closed set
`{ack, op, new, bye}`; a failed external call yields `"ack"`, and a
returned key outside the set also yields `"ack"`. -/
theorem classify_intent_closed (o : Except String String) :
    classify_intent o ∈ ["ack", "op", "new", "bye"] ∧
    (∀ e, o = Except.error e → classify_intent o = "ack") ∧
    (∀ key, o = Except.ok key → key ∉ (["ack", "op", "new", "bye"] : List String) →
      classify_intent o = "ack") := by
  refine ⟨?_, ?_, ?_⟩
  · cases o with
    | error e =>
        have h : classify_intent (Except.error e) = "ack" := rfl
        rw [h]
        decide
    | ok key =>
        show (if (SENTENCE_TYPES.map Prod.fst).contains key then key else "ack") ∈ _
        split
        · next h => exact List.elem_iff.mp h
        · decide
  · intro e he
    subst he
    rfl
  · intro key he hmem
    subst he
    show (if (SENTENCE_TYPES.map Prod.fst).contains key then key else "ack") = "ack"
    rw [if_neg]
    intro hc
    exact hmem (List.elem_iff.mp hc)

/-- Witness for `classify_intent_closed`: a key outside the closed set
collapses to `"ack"`, and a failed call collapses to `"ack"`. -/
theorem classify_intent_closed_witness :
    classify_intent (Except.ok "zzz") ∈ ["ack", "op", "new", "bye"] ∧
    classify_intent (Except.ok "zzz") = "ack" ∧
    classify_intent (Except.error "boom") = "ack" :=
  ⟨(classify_intent_closed (Except.ok "zzz")).1,
   (classify_intent_closed (Except.ok "zzz")).2.2 "zzz" rfl (by decide),
   (classify_intent_closed (Except.error "boom")).2.1 "boom" rfl⟩

/-- C3: a talk-loop tick sends and appends an assistant Turn only when a
pending intent exists, the most recent Turn is not assistant-authored, and
at least `idle_seconds_before_talk` (2.0 s) have elapsed since the last
user message; on any tick where one of these fails, nothing is sent and
the history is unchanged — so no assistant Turn is ever appended before
`last_user_ts + 2.0`. -/
theorem tick_idle_threshold (st : AgentState) (now : Rat) (g : Except String String) :
    ((tick st now g).2.isSome = true ∨ (tick st now g).1.message_history ≠ st.message_history →
      st.pending_sentence_type.isSome = true ∧
      lastRoleIsAssistant st.message_history = false ∧
      st.last_user_ts + idle_seconds_before_talk ≤ now) ∧
    (st.pending_sentence_type.isSome = true →
      lastRoleIsAssistant st.message_history = false →
      st.last_user_ts + idle_seconds_before_talk ≤ now →
      ∃ r, (tick st now g).2 = some r ∧
        (tick st now g).1.message_history = st.message_history ++ [⟨"assistant", r⟩]) := by
  rcases hp : st.pending_sentence_type with _ | ty
  · constructor
    · intro h
      rcases h with h | h
      · simp [tick, hp] at h
      · simp [tick, hp] at h
    · intro h1 _ _
      simp at h1
  · by_cases ha : lastRoleIsAssistant st.message_history = true
    · constructor
      · intro h
        rcases h with h | h
        · simp [tick, hp, ha] at h
        · simp [tick, hp, ha] at h
      · intro _ h2 _
        rw [h2] at ha
        simp at ha
    · have ha' : lastRoleIsAssistant st.message_history = false := by
        simpa using ha
      by_cases ht : now - st.last_user_ts < idle_seconds_before_talk
      · constructor
        · intro h
          rcases h with h | h
          · simp [tick, hp, ha', ht] at h
          · simp [tick, hp, ha', ht] at h
        · intro _ _ h3
          exfalso
          rw [sub_lt_iff_lt_add] at ht
          exact absurd h3 (by linarith)
      · constructor
        · intro _
          refine ⟨by simp [hp], ha', ?_⟩
          rw [not_lt, le_sub_iff_add_le] at ht
          linarith
        · intro _ _ _
          exact ⟨generate_reply ty g, by simp [tick, hp, ha', ht],
            by simp [tick, hp, ha', ht]⟩

/-- Witness for `tick_idle_threshold`: with a pending intent, a
user-authored last Turn, and a tick 2.0 s after the user message, a reply
is sent and appended. -/
theorem tick_idle_threshold_witness :
    ∃ r, (tick ⟨[system_turn, ⟨"user", "hi"⟩], some "ack", 0⟩ 2 (Except.ok "ok")).2 = some r ∧
      (tick ⟨[system_turn, ⟨"user", "hi"⟩], some "ack", 0⟩ 2 (Except.ok "ok")).1.message_history =
        [system_turn, ⟨"user", "hi"⟩] ++ [⟨"assistant", r⟩] :=
  (tick_idle_threshold ⟨[system_turn, ⟨"user", "hi"⟩], some "ack", 0⟩ 2 (Except.ok "ok")).2
    rfl (by decide) (by norm_num [idle_seconds_before_talk])

/-- C4: on a tick where an intent is pending but the most recent Turn is
already assistant-authored, the pending intent is cleared, nothing is
sent, and the history is unchanged — no duplicate reply. -/
theorem tick_already_replied (st : AgentState) (now : Rat) (g : Except String String)
    (h1 : st.pending_sentence_type.isSome = true)
    (h2 : lastRoleIsAssistant st.message_history = true) :
    (tick st now g).1.pending_sentence_type = none ∧
    (tick st now g).2 = none ∧
    (tick st now g).1.message_history = st.message_history := by
  rcases hp : st.pending_sentence_type with _ | ty
  · rw [hp] at h1
    simp at h1
  · simp [tick, hp, h2]

/-- Witness for `tick_already_replied` at a concrete state whose last Turn
is assistant-authored. -/
theorem tick_already_replied_witness :
    (tick ⟨[system_turn, ⟨"assistant", "done"⟩], some "op", 0⟩ 5 (Except.ok "x")).1.pending_sentence_type = none ∧
    (tick ⟨[system_turn, ⟨"assistant", "done"⟩], some "op", 0⟩ 5 (Except.ok "x")).2 = none ∧
    (tick ⟨[system_turn, ⟨"assistant", "done"⟩], some "op", 0⟩ 5 (Except.ok "x")).1.message_history =
      [system_turn, ⟨"assistant", "done"⟩] :=
  tick_already_replied ⟨[system_turn, ⟨"assistant", "done"⟩], some "op", 0⟩ 5 (Except.ok "x")
    rfl (by decide)

/-- C7: when the generation call fails on a speaking tick, the loop still
replies: the error-marked string `"[GPT error] " ++ e` is sent and
appended as an assistant Turn exactly as a successful reply would be. -/
theorem tick_generation_failure (st : AgentState) (now : Rat) (ty e : String)
    (hp : st.pending_sentence_type = some ty)
    (ha : lastRoleIsAssistant st.message_history = false)
    (ht : st.last_user_ts + idle_seconds_before_talk ≤ now) :
    (tick st now (Except.error e)).2 = some ("[GPT error] " ++ e) ∧
    (tick st now (Except.error e)).1.message_history =
      st.message_history ++ [⟨"assistant", "[GPT error] " ++ e⟩] ∧
    (tick st now (Except.error e)).1.pending_sentence_type = none := by
  have ht' : ¬(now - st.last_user_ts < idle_seconds_before_talk) := by
    rw [not_lt, le_sub_iff_add_le]
    linarith
  refine ⟨?_, ?_, ?_⟩ <;> simp [tick, hp, ha, ht', generate_reply]

/-- Witness for `tick_generation_failure` at a concrete state and failing
generation call. -/
theorem tick_generation_failure_witness :
    (tick ⟨[system_turn, ⟨"user", "hi"⟩], some "op", 1⟩ 4 (Except.error "timeout")).2 =
      some ("[GPT error] " ++ "timeout") ∧
    (tick ⟨[system_turn, ⟨"user", "hi"⟩], some "op", 1⟩ 4 (Except.error "timeout")).1.message_history =
      [system_turn, ⟨"user", "hi"⟩] ++ [⟨"assistant", "[GPT error] " ++ "timeout"⟩] ∧
    (tick ⟨[system_turn, ⟨"user", "hi"⟩], some "op", 1⟩ 4 (Except.error "timeout")).1.pending_sentence_type = none :=
  tick_generation_failure ⟨[system_turn, ⟨"user", "hi"⟩], some "op", 1⟩ 4 "op" "timeout"
    rfl (by decide) (by norm_num [idle_seconds_before_talk])

theorem head?_append_left {l l2 : List Turn} {a : Turn} (h : l.head? = some a) :
    (l ++ l2).head? = some a := by
  cases l <;> simp_all

theorem tick_extends (st : AgentState) (now : Rat) (g : Except String String) :
    ∃ s, (tick st now g).1.message_history = st.message_history ++ s := by
  rcases hp : st.pending_sentence_type with _ | ty
  · exact ⟨[], by simp [tick, hp]⟩
  · by_cases ha : lastRoleIsAssistant st.message_history
    · exact ⟨[], by simp [tick, hp, ha]⟩
    · by_cases ht : now - st.last_user_ts < idle_seconds_before_talk
      · exact ⟨[], by simp [tick, hp, ha, ht]⟩
      · exact ⟨[⟨"assistant", generate_reply ty g⟩], by simp [tick, hp, ha, ht]⟩

/-- C8: message arrival and talk-loop ticks only ever append to the end of
the history (never modifying, reordering or deleting entries), and in
every reachable agent state the first history entry is the fixed
system-role persona Turn created at construction. -/
theorem history_invariant (st : AgentState) (m : String) (now now2 : Rat)
    (co g : Except String String) :
    (∃ s, (on_message st m now co).message_history = st.message_history ++ s) ∧
    (∃ s, (tick st now2 g).1.message_history = st.message_history ++ s) ∧
    (∀ st2, Reachable st2 → st2.message_history.head? = some system_turn) := by
  refine ⟨⟨[⟨"user", m⟩], rfl⟩, tick_extends st now2 g, ?_⟩
  intro st2 h
  induction h with
  | init => rfl
  | msg st3 m3 n3 co3 _ ih => exact head?_append_left ih
  | tickStep st3 n3 g3 _ ih =>
      obtain ⟨s, hs⟩ := tick_extends st3 n3 g3
      rw [hs]
      exact head?_append_left ih

/-- Witness for `history_invariant`: the initial state starts with the
persona Turn, and a concrete message arrival appends to the history. -/
theorem history_invariant_witness :
    init_state.message_history.head? = some system_turn ∧
    ∃ s, (on_message init_state "hi" 1 (Except.ok "ack")).message_history =
      init_state.message_history ++ s :=
  ⟨(history_invariant init_state "hi" 1 1 (Except.ok "ack") (Except.ok "r")).2.2
    init_state Reachable.init,
   (history_invariant init_state "hi" 1 1 (Except.ok "ack") (Except.ok "r")).1⟩

/-- C10: the generation request is the type-directed system instruction
followed by exactly the last five history entries, so any two histories
agreeing on their last five entries produce the identical request — earlier
Turns never influence the generated reply. -/
theorem generation_request_last_five (ty : String) (h1 h2 : List Turn)
    (h : last_five h1 = last_five h2) :
    generation_request ty h1 = generation_request ty h2 := by
  simp [generation_request, h]

/-- Witness for `generation_request_last_five`: two six-entry histories
differing only in their first entry produce the same request. -/
theorem generation_request_last_five_witness :
    generation_request "op"
      [⟨"system", "persona"⟩, ⟨"user", "a"⟩, ⟨"assistant", "b"⟩,
       ⟨"user", "c"⟩, ⟨"assistant", "d"⟩, ⟨"user", "e"⟩] =
    generation_request "op"
      [⟨"system", "another earlier entry"⟩, ⟨"user", "a"⟩, ⟨"assistant", "b"⟩,
       ⟨"user", "c"⟩, ⟨"assistant", "d"⟩, ⟨"user", "e"⟩] :=
  generation_request_last_five "op" _ _ rfl
